import Mathlib

/-!
Verification of the KoELECTRA sentiment-analysis service
(`transformerservice/app/koelectra/koelectra_service.py` and
`koelectra_router.py`).

The development shallowly embeds the service: the text preprocessor,
the logits-to-probabilities post-processing of the predictor, the
lazy model-loading state machine, the batch orchestrator, the health
reporter, the router-level batch-size validation, the partial
state-dict reconciliation of the model loader, and the module-level
singleton handling shared between the service and router modules.
-/

set_option autoImplicit false

namespace KoelectraVerif

/-! ### Text preprocessor (`preprocess_text`, service lines 112-124)

Python: `if not text: return ""`, then `text.strip()`, then
`re.sub(r'\s+', ' ', text)`.  Whitespace is modelled by the ASCII
whitespace characters recognized both by `str.strip` and by `\s`. -/

def isSpaceChar (c : Char) : Bool :=
  c = ' ' || c = '\t' || c = '\n' || c = '\r' || c = '\x0b' || c = '\x0c'

/-- Embedding of Python `str.strip()`: drop leading and trailing
whitespace characters. -/
def stripL (l : List Char) : List Char :=
  ((l.dropWhile isSpaceChar).reverse.dropWhile isSpaceChar).reverse

/-- Scanner for `re.sub(r'\s+', ' ', text)`: `inRun` records whether
the previous character belonged to a whitespace run; the first
character of each run is emitted as a single space and the rest of
the run is skipped. -/
def collapseAux : Bool → List Char → List Char
  | _, [] => []
  | inRun, c :: rest =>
    if isSpaceChar c then
      if inRun then collapseAux true rest
      else ' ' :: collapseAux true rest
    else c :: collapseAux false rest

/-- Embedding of `re.sub(r'\s+', ' ', text)`: every maximal run of
whitespace characters is replaced by a single space. -/
def collapseL (l : List Char) : List Char :=
  collapseAux false l

/-- `KoELECTRASentimentService.preprocess_text` (lines 112-124). -/
def preprocess_text (text : String) : String :=
  if text = "" then ""
  else String.mk (collapseL (stripL text.data))

/-! ### Predictor post-processing (service lines 152-174)

The forward pass and `torch.nn.functional.softmax` live in the
external library; the exponential is abstracted by a function
`E : ℚ → ℚ` (only its positivity matters), and logits/probabilities
are exact rationals. -/

/-- Two-way softmax over the logits pair, with `E` standing for the
exponential. -/
def softmax2 (E : ℚ → ℚ) (l : ℚ × ℚ) : ℚ × ℚ :=
  (E l.1 / (E l.1 + E l.2), E l.2 / (E l.1 + E l.2))

/-- `torch.argmax` over the two probabilities: index of the largest
entry, first index on a tie. -/
def argmax2 (p : ℚ × ℚ) : Nat :=
  if p.2 > p.1 then 1 else 0

/-- Indexing into the probability pair, as in `probabilities[0][i]`. -/
def probOf (p : ℚ × ℚ) (i : Nat) : ℚ :=
  if i = 0 then p.1 else p.2

/-- `self.label_mapping = {0: "부정", 1: "긍정"}` (lines 44-47). -/
def label_mapping (i : Nat) : String :=
  if i = 0 then ("부정") else ("긍정")

/-- The quantities computed inside the `torch.no_grad()` block before
any display rounding: predicted class, its probability (`confidence`),
and the two class probabilities. -/
structure RawOutcome where
  predicted : Nat
  confidence : ℚ
  probNeg : ℚ
  probPos : ℚ
deriving DecidableEq

/-- Lines 157-159: softmax, argmax, and `probabilities[0][predicted_class]`. -/
def postprocess (E : ℚ → ℚ) (l : ℚ × ℚ) : RawOutcome :=
  let p := softmax2 E l
  let c := argmax2 p
  ⟨c, probOf p c, p.1, p.2⟩

/-- Python `round(x, 4)` used for display in the result dict. -/
def round4 (x : ℚ) : ℚ :=
  (round (x * 10000) : ℤ) / 10000

/-- The successful result dict built at lines 162-174 (the constant
`model_type` entry is omitted; `device` is carried through). -/
structure ResultRecord where
  text : String
  sentiment : String
  confidence : ℚ
  probNeg : ℚ
  probPos : ℚ
  device : String
deriving DecidableEq

/-- Assembling the result dict from the raw outcome: label mapping and
independent 4-digit rounding of `confidence` and both probabilities. -/
def roundRecord (text : String) (device : String) (r : RawOutcome) : ResultRecord :=
  ⟨text, label_mapping r.predicted, round4 r.confidence,
    round4 r.probNeg, round4 r.probPos, device⟩

/-! ### Service state machine (lazy loading, prediction, batch, health)

The environment collects everything the service reads from outside:
the filesystem, whether the tokenizer and the weight file load without
an exception, the abstract exponential, the forward pass on the
preprocessed text (logits or an exception message), and the device
string. The state holds the `self.model` / `self.tokenizer` slots and
the selected checkpoint path. -/

structure ServiceEnv where
  fs : String → Bool
  tokOk : Bool
  configOk : Bool
  weightOk : Bool
  E : ℚ → ℚ
  infer : String → Except String (ℚ × ℚ)
  device : String

structure ServiceState where
  modelSet : Bool
  tokenizerSet : Bool
  model_path : String
deriving DecidableEq

/-- `self.finetuned_model_path` (line 31). -/
def finetuned_model_path : String := "app/koelectra/koelectra_model_finetuned"

/-- `self.base_model_path` (line 32). -/
def base_model_path : String := "app/koelectra/koelectra_model"

/-- `KoELECTRASentimentService.__init__` (lines 25-49): the Model
Locator picks the fine-tuned checkpoint path when its directory
exists, else the base path; `self.model` and `self.tokenizer` start
out unset. -/
def init_service (fs : String → Bool) : ServiceState :=
  { modelSet := false
    tokenizerSet := false
    model_path := if fs finetuned_model_path then finetuned_model_path else base_model_path }

/-- `load_model` (lines 51-110) at the success/failure level: returns
`False` when the checkpoint path does not exist; `self.tokenizer` is
assigned at line 63 before anything else can fail, and `self.model`
is assigned the freshly constructed network at line 76 *before*
`torch.load` reads the weights at line 79. So an exception while
reading the config or constructing the network (`configOk = false`)
leaves only the tokenizer set, while an exception during weight
loading, state-dict filling, re-initialization or device placement
(`weightOk = false`, lines 79-103) leaves both the tokenizer and the
randomly initialized network assigned. -/
def load_model (env : ServiceEnv) (s : ServiceState) : Bool × ServiceState :=
  if env.fs s.model_path = false then (false, s)
  else if env.tokOk = false then (false, s)
  else if env.configOk = false then (false, { s with tokenizerSet := true })
  else if env.weightOk = false then
    (false, { s with tokenizerSet := true, modelSet := true })
  else (true, { s with tokenizerSet := true, modelSet := true })

/-- The guard `not self.model or not self.tokenizer` (line 129),
negated: a model is resident when both slots are set. -/
def resident (s : ServiceState) : Bool :=
  s.modelSet && s.tokenizerSet

/-- Whether a load attempt in `env` from state `s` would succeed. -/
def load_ok (env : ServiceEnv) (s : ServiceState) : Bool :=
  env.fs s.model_path && env.tokOk && env.configOk && env.weightOk

inductive PredResult where
  | ok (r : ResultRecord)
  | error (msg : String)
deriving DecidableEq

def PredResult.isError : PredResult → Bool
  | .ok _ => false
  | .error _ => true

/-- The body of `predict_sentiment` after the lazy-load guard
(lines 133-177): preprocess, reject the empty result, run the forward
pass, post-process and round. -/
def predictLoaded (env : ServiceEnv) (s : ServiceState) (text : String) :
    PredResult × ServiceState :=
  if preprocess_text text = "" then (.error ("빈 텍스트입니다"), s)
  else
    match env.infer (preprocess_text text) with
    | .error e => (.error ("감성분석 실패: " ++ e), s)
    | .ok l => (.ok (roundRecord text env.device (postprocess env.E l)), s)

/-- `predict_sentiment` (lines 126-181): lazily loads the model when
either slot is unset, surfacing a load failure as the structured
error `"모델 로딩 실패"`. -/
def predict_sentiment (env : ServiceEnv) (s : ServiceState) (text : String) :
    PredResult × ServiceState :=
  if resident s = false then
    if (load_model env s).1 = false then
      (.error ("모델 로딩 실패"), (load_model env s).2)
    else predictLoaded env (load_model env s).2 text
  else predictLoaded env s text

/-- The `for text in texts` loop of `predict_batch` (lines 190-194),
threading the service state. -/
def batchGo (env : ServiceEnv) (s : ServiceState) :
    List String → List PredResult × ServiceState
  | [] => ([], s)
  | t :: ts =>
    let rs₁ := predict_sentiment env s t
    let rs₂ := batchGo env rs₁.2 ts
    (rs₁.1 :: rs₂.1, rs₂.2)

/-- `predict_batch` (lines 183-200): one up-front lazy load, then the
sequential per-item loop; a load failure yields one error entry per
input item. -/
def predict_batch (env : ServiceEnv) (s : ServiceState) (texts : List String) :
    List PredResult × ServiceState :=
  if resident s = false then
    if (load_model env s).1 = false then
      (texts.map fun _ => PredResult.error ("모델 로딩 실패"), (load_model env s).2)
    else batchGo env (load_model env s).2 texts
  else batchGo env s texts

/-- The fixed probe sentence of `health_check` (line 217). -/
def probe_sentence : String := "이 영화는 정말 재미있어요!"

structure HealthReport where
  status : String
  model_loaded : Bool
  tokenizer_loaded : Bool
  device : String
  test_prediction : PredResult
deriving DecidableEq

/-- `health_check` (lines 213-232): run the predictor on the probe
sentence; `status` is `"healthy"` exactly when the probe result
carries no error key. -/
def health_check (env : ServiceEnv) (s : ServiceState) : HealthReport × ServiceState :=
  ({ status :=
        if (predict_sentiment env s probe_sentence).1.isError then ("error")
        else ("healthy")
     model_loaded := (predict_sentiment env s probe_sentence).2.modelSet
     tokenizer_loaded := (predict_sentiment env s probe_sentence).2.tokenizerSet
     device := env.device
     test_prediction := (predict_sentiment env s probe_sentence).1 },
   (predict_sentiment env s probe_sentence).2)

/-! ### Router layer (`koelectra_router.py`)

`BatchSentimentRequest.texts` is declared with `min_items=1,
max_items=50` (line 38); the HTTP framework validates the request
against these bounds before the handler body (and hence any
inference) runs. -/

def min_batch_items : Nat := 1

def max_batch_items : Nat := 50

/-- The declared validation predicate for `BatchSentimentRequest.texts`. -/
def batchRequestValid (texts : List String) : Bool :=
  min_batch_items ≤ texts.length && texts.length ≤ max_batch_items

/-- The `/batch` endpoint (lines 106-140): an invalid request is
rejected at the validation boundary and the service is never invoked. -/
def analyze_batch (env : ServiceEnv) (s : ServiceState) (texts : List String) :
    Except String (List PredResult × ServiceState) :=
  if batchRequestValid texts then .ok (predict_batch env s texts)
  else .error ("validation error")

/-! ### Model loader: state-dict reconciliation (service lines 68-100)

`load_model` builds an `ElectraForSequenceClassification` from the
checkpoint's config with `num_labels` forced to 2, copies over the
checkpoint tensors whose name and shape match the fresh network,
loads the merged dict with `strict=False`, and then re-initializes
the classifier weight from `N(0, 0.02)` and zeroes its bias.

State dicts are modelled as partial maps from parameter names to
tensors; a tensor is a shape together with a symbolic value recording
where it came from. -/

/-- Provenance of a tensor value after loading. -/
inductive Val where
  | ckpt (name : String)
  | fresh (name : String)
  | normal (mean : ℚ) (std : ℚ)
  | zeros
deriving DecidableEq

structure Tensor where
  shape : List Nat
  val : Val
deriving DecidableEq

/-- Parameter name of the classifier weight the code re-initializes
(`self.model.classifier.weight`). -/
def classifier_weight_key : String := "classifier.weight"

/-- Parameter name of the classifier bias (`self.model.classifier.bias`). -/
def classifier_bias_key : String := "classifier.bias"

/-- The checkpoint's `ElectraConfig`: its label count, hidden size,
and the shapes of the non-classifier (backbone) parameters the
architecture derives from it. -/
structure ElectraConfig where
  num_labels : Nat
  hidden_size : Nat
  backbone : String → Option (List Nat)

/-- `self.model.state_dict()` of the freshly constructed
`ElectraForSequenceClassification(config)`: backbone parameters plus
a classifier weight of shape `[num_labels, hidden_size]` and a
classifier bias of shape `[num_labels]`, all freshly initialized. -/
def freshStateDict (cfg : ElectraConfig) : String → Option Tensor := fun k =>
  if k = classifier_weight_key then
    some ⟨[cfg.num_labels, cfg.hidden_size], .fresh k⟩
  else if k = classifier_bias_key then
    some ⟨[cfg.num_labels], .fresh k⟩
  else (cfg.backbone k).map fun sh => ⟨sh, .fresh k⟩

/-- The dict returned by `torch.load(... "pytorch_model.bin")`: the
checkpoint's named tensor shapes, each value tagged with its name. -/
def checkpointDict (ckpt : String → Option (List Nat)) : String → Option Tensor :=
  fun k => (ckpt k).map fun sh => ⟨sh, .ckpt k⟩

/-- Lines 88-91: keep a checkpoint tensor only when the fresh model
has a tensor of the same name and the same shape. -/
def filtered_dict (pretrained model_dict : String → Option Tensor) :
    String → Option Tensor := fun k =>
  match pretrained k, model_dict k with
  | some v, some m => if m.shape = v.shape then some v else none
  | _, _ => none

/-- Line 94: `model_dict.update(filtered_dict)`. -/
def dict_update (model_dict filtered : String → Option Tensor) :
    String → Option Tensor := fun k =>
  match filtered k with
  | some v => some v
  | none => model_dict k

/-- Lines 98-100: `normal_(classifier.weight, std=0.02)` and
`zeros_(classifier.bias)`, in place, shapes preserved. -/
def reinit_classifier (d : String → Option Tensor) : String → Option Tensor :=
  fun k =>
    if k = classifier_weight_key then (d k).map fun t => ⟨t.shape, .normal 0 (2/100)⟩
    else if k = classifier_bias_key then (d k).map fun t => ⟨t.shape, .zeros⟩
    else d k

/-- The model's parameters after `load_state_dict(model_dict,
strict=False)` (line 95), before the classifier re-initialization:
the fresh dict of the two-class config updated with the shape-matched
checkpoint tensors. -/
def updated_dict (cfg : ElectraConfig) (ckpt : String → Option (List Nat)) :
    String → Option Tensor :=
  dict_update (freshStateDict { cfg with num_labels := 2 })
    (filtered_dict (checkpointDict ckpt) (freshStateDict { cfg with num_labels := 2 }))

/-- The model's parameters at the end of a successful `load_model`. -/
def load_model_dict (cfg : ElectraConfig) (ckpt : String → Option (List Nat)) :
    String → Option Tensor :=
  reinit_classifier (updated_dict cfg ckpt)

/-! ### Module-level singleton and the `/train` reload trigger

`koelectra_service` holds `_service_instance` (lines 236-243);
`koelectra_router.train_model` executes `global _service_instance;
_service_instance = None` (lines 309-310) inside the *router* module,
whose namespace is distinct from the service module's: only a router
module attribute is (re)bound, the service module's singleton is
untouched. Both module-level bindings are modelled. -/

structure ProcessGlobals where
  serviceInstance : Option ServiceState
  routerInstance : Option ServiceState
deriving DecidableEq

/-- `get_sentiment_service` (service lines 238-243): construct the
service on first call, then return the cached instance. -/
def get_sentiment_service (fs : String → Bool) (g : ProcessGlobals) :
    ServiceState × ProcessGlobals :=
  match g.serviceInstance with
  | some s => (s, g)
  | none =>
    let s := init_service fs
    (s, { g with serviceInstance := some s })

/-- The reset performed by `train_model` on success (router lines
309-310): `global _service_instance; _service_instance = None` binds
`None` to `_service_instance` in `koelectra_router`'s namespace. -/
def train_model_success_reset (g : ProcessGlobals) : ProcessGlobals :=
  { g with routerInstance := none }

/-! ### Lemmas about the text preprocessor -/

/-- Nothing at the head of `l` is whitespace. -/
def headOk (l : List Char) : Prop :=
  ∀ c, l.head? = some c → isSpaceChar c = false

/-- Nothing at the end of `l` is whitespace. -/
def lastOk (l : List Char) : Prop :=
  ∀ c, l.getLast? = some c → isSpaceChar c = false

theorem head?_dropWhile_not {l : List Char} {c : Char}
    (h : (l.dropWhile isSpaceChar).head? = some c) : isSpaceChar c = false := by
  induction l with
  | nil => simp [List.dropWhile] at h
  | cons a l ih =>
    rw [List.dropWhile_cons] at h
    by_cases ha : isSpaceChar a
    · rw [if_pos ha] at h
      exact ih h
    · rw [if_neg ha] at h
      simp at h
      rw [← h]
      exact Bool.eq_false_iff.mpr ha

theorem dropWhile_eq_self_of_headOk {l : List Char} (h : headOk l) :
    l.dropWhile isSpaceChar = l := by
  cases l with
  | nil => rfl
  | cons a l =>
    rw [List.dropWhile_cons, if_neg]
    simp [h a rfl]

theorem getLast?_dropWhile_of_ne_nil {l : List Char}
    (h : l.dropWhile isSpaceChar ≠ []) :
    (l.dropWhile isSpaceChar).getLast? = l.getLast? := by
  induction l with
  | nil => rfl
  | cons a l ih =>
    rw [List.dropWhile_cons]
    by_cases ha : isSpaceChar a
    · rw [List.dropWhile_cons, if_pos ha] at h
      have hl : l ≠ [] := by
        intro he
        exact h (by simp [he, List.dropWhile])
      rw [if_pos ha, ih h]
      cases l with
      | nil => exact absurd rfl hl
      | cons b m => simp
    · rw [if_neg ha]

theorem headOk_stripL (l : List Char) : headOk (stripL l) := by
  intro c hc
  unfold stripL at hc
  rw [List.head?_reverse] at hc
  have hne : (l.dropWhile isSpaceChar).reverse.dropWhile isSpaceChar ≠ [] := by
    intro he
    rw [he] at hc
    simp at hc
  rw [getLast?_dropWhile_of_ne_nil hne, List.getLast?_reverse] at hc
  exact head?_dropWhile_not hc

theorem lastOk_stripL (l : List Char) : lastOk (stripL l) := by
  intro c hc
  unfold stripL at hc
  rw [List.getLast?_reverse] at hc
  exact head?_dropWhile_not hc

theorem stripL_eq_self {l : List Char} (h1 : headOk l) (h2 : lastOk l) :
    stripL l = l := by
  unfold stripL
  rw [dropWhile_eq_self_of_headOk h1]
  have hrev : headOk l.reverse := by
    intro c hc
    rw [List.head?_reverse] at hc
    exact h2 c hc
  rw [dropWhile_eq_self_of_headOk hrev, List.reverse_reverse]

theorem collapseAux_idem (l : List Char) :
    (∀ b, collapseAux b (collapseAux b l) = collapseAux b l) ∧
      collapseAux false (collapseAux true l) = collapseAux true l := by
  induction l with
  | nil => exact ⟨fun _ => rfl, rfl⟩
  | cons c r ih =>
    by_cases hc : isSpaceChar c
    · have hsp : isSpaceChar ' ' = true := rfl
      refine ⟨fun b => ?_, ?_⟩
      · cases b with
        | true =>
          simp only [collapseAux, if_pos hc]
          exact ih.1 true
        | false =>
          simp only [collapseAux, if_pos hc, if_pos hsp]
          rw [ih.1 true]
      · simp only [collapseAux, if_pos hc]
        exact ih.2
    · refine ⟨fun b => ?_, ?_⟩ <;>
      · simp only [collapseAux, if_neg hc]
        rw [ih.1 false]

theorem collapseL_idem (l : List Char) : collapseL (collapseL l) = collapseL l :=
  (collapseAux_idem l).1 false

theorem headOk_collapseL {l : List Char} (h : headOk l) : headOk (collapseL l) := by
  cases l with
  | nil => intro c hc; simp [collapseL, collapseAux] at hc
  | cons a r =>
    intro c hc
    have ha : isSpaceChar a = false := h a rfl
    simp only [collapseL, collapseAux, ha, Bool.false_eq_true, if_false] at hc
    simp at hc
    rw [← hc]
    exact ha

theorem collapseAux_cons_space {a : Char} {r : List Char} (b : Bool)
    (ha : isSpaceChar a = true) :
    collapseAux b (a :: r) =
      if b then collapseAux true r else ' ' :: collapseAux true r := by
  cases b <;> simp [collapseAux, ha]

theorem collapseAux_cons_nonspace {a : Char} {r : List Char} (b : Bool)
    (ha : isSpaceChar a = false) :
    collapseAux b (a :: r) = a :: collapseAux false r := by
  cases b <;> simp [collapseAux, ha]

theorem lastOk_collapseAux {l : List Char} (h : lastOk l) :
    ∀ b, (collapseAux b l = [] → l = []) ∧ lastOk (collapseAux b l) := by
  induction l with
  | nil => exact fun b => ⟨fun _ => rfl, fun c hc => by simp [collapseAux] at hc⟩
  | cons a r ih =>
    intro b
    cases r with
    | nil =>
      have ha : isSpaceChar a = false := h a (by simp)
      rw [collapseAux_cons_nonspace b ha]
      refine ⟨fun hx => by simp at hx, fun c hc => ?_⟩
      simp [collapseAux] at hc
      rw [← hc]
      exact ha
    | cons a' r' =>
      have hlast : lastOk (a' :: r') := by
        intro c hc
        exact h c (by rw [List.getLast?_cons_cons]; exact hc)
      have ihr := ih hlast
      have hne : ∀ b', collapseAux b' (a' :: r') ≠ [] := by
        intro b' hx
        have := (ihr b').1 hx
        simp at this
      by_cases ha : isSpaceChar a
      · rw [collapseAux_cons_space b ha]
        cases b with
        | true =>
          simp only [if_true]
          exact ⟨fun hx => absurd hx (hne true), (ihr true).2⟩
        | false =>
          simp only [Bool.false_eq_true, if_false]
          refine ⟨fun hx => by simp at hx, fun c hc => ?_⟩
          rcases hcc : collapseAux true (a' :: r') with _ | ⟨d, m⟩
          · exact absurd hcc (hne true)
          · rw [hcc, List.getLast?_cons_cons] at hc
            exact (ihr true).2 c (by rw [hcc]; exact hc)
      · have ha' : isSpaceChar a = false := Bool.eq_false_iff.mpr ha
        rw [collapseAux_cons_nonspace b ha']
        refine ⟨fun hx => by simp at hx, fun c hc => ?_⟩
        rcases hcc : collapseAux false (a' :: r') with _ | ⟨d, m⟩
        · exact absurd hcc (hne false)
        · rw [hcc, List.getLast?_cons_cons] at hc
          exact (ihr false).2 c (by rw [hcc]; exact hc)

theorem preprocess_data (t : String) (h : t ≠ "") :
    preprocess_text t = String.mk (collapseL (stripL t.data)) := by
  unfold preprocess_text
  rw [if_neg h]

theorem stripL_of_all_space {l : List Char}
    (h : ∀ c ∈ l, isSpaceChar c = true) : stripL l = [] := by
  unfold stripL
  have h1 : l.dropWhile isSpaceChar = [] := List.dropWhile_eq_nil_iff.mpr h
  rw [h1]
  rfl

/-! ### Lemmas about the service state machine -/

theorem predictLoaded_snd (env : ServiceEnv) (s : ServiceState) (t : String) :
    (predictLoaded env s t).2 = s := by
  unfold predictLoaded
  split
  · rfl
  · split <;> rfl

theorem predict_resident (env : ServiceEnv) (s : ServiceState) (t : String)
    (h : resident s = true) :
    predict_sentiment env s t = predictLoaded env s t := by
  unfold predict_sentiment
  rw [h]
  simp

theorem predict_resident_snd (env : ServiceEnv) (s : ServiceState) (t : String)
    (h : resident s = true) : (predict_sentiment env s t).2 = s := by
  rw [predict_resident env s t h]
  exact predictLoaded_snd env s t

theorem load_model_of_ok {env : ServiceEnv} {s : ServiceState}
    (h : load_ok env s = true) :
    load_model env s = (true, { s with tokenizerSet := true, modelSet := true }) := by
  unfold load_ok at h
  simp only [Bool.and_eq_true] at h
  unfold load_model
  rw [h.1.1.1, h.1.1.2, h.1.2, h.2]
  simp

theorem load_model_fail {env : ServiceEnv} {s : ServiceState}
    (h : load_ok env s = false) :
    (load_model env s).1 = false ∧
      (load_model env s).2.model_path = s.model_path := by
  unfold load_model
  cases hf : env.fs s.model_path <;> cases ht : env.tokOk <;>
    cases hc : env.configOk <;> cases hw : env.weightOk <;> simp_all [load_ok]

theorem predict_load_fail {env : ServiceEnv} {s : ServiceState} (t : String)
    (hres : resident s = false) (h : load_ok env s = false) :
    (predict_sentiment env s t).1 = .error ("모델 로딩 실패") ∧
      (predict_sentiment env s t).2.model_path = s.model_path := by
  obtain ⟨h1, h2⟩ := load_model_fail h
  unfold predict_sentiment
  rw [hres, h1]
  exact ⟨rfl, h2⟩

theorem predict_unresident_ok {env : ServiceEnv} {s : ServiceState} (t : String)
    (hres : resident s = false) (h : load_ok env s = true) :
    predict_sentiment env s t =
      predictLoaded env { s with tokenizerSet := true, modelSet := true } t := by
  unfold predict_sentiment
  rw [hres, load_model_of_ok h]
  simp

theorem batchGo_resident (env : ServiceEnv) (s : ServiceState)
    (h : resident s = true) (texts : List String) :
    batchGo env s texts = (texts.map fun t => (predict_sentiment env s t).1, s) := by
  induction texts with
  | nil => rfl
  | cons t ts ih =>
    simp only [batchGo]
    rw [predict_resident_snd env s t h, ih]
    rfl

theorem predictLoaded_ok_inv {env : ServiceEnv} {s : ServiceState} {t : String}
    {rec : ResultRecord} (h : (predictLoaded env s t).1 = .ok rec) :
    ∃ l, env.infer (preprocess_text t) = .ok l ∧
      rec = roundRecord t env.device (postprocess env.E l) := by
  unfold predictLoaded at h
  split at h
  · simp at h
  · split at h
    · simp at h
    · rename_i l heq
      simp at h
      exact ⟨l, heq, h.symm⟩

theorem predict_ok_inv {env : ServiceEnv} {s : ServiceState} {t : String}
    {rec : ResultRecord} (h : (predict_sentiment env s t).1 = .ok rec) :
    ∃ l, env.infer (preprocess_text t) = .ok l ∧
      rec = roundRecord t env.device (postprocess env.E l) := by
  unfold predict_sentiment at h
  split at h
  · split at h
    · simp at h
    · exact predictLoaded_ok_inv h
  · exact predictLoaded_ok_inv h

theorem postprocess_consistent (E : ℚ → ℚ) (l : ℚ × ℚ) (hE : ∀ x, 0 < E x) :
    (postprocess E l).confidence =
      max (postprocess E l).probNeg (postprocess E l).probPos ∧
    (postprocess E l).probNeg + (postprocess E l).probPos = 1 := by
  have hS : (0 : ℚ) < E l.1 + E l.2 := add_pos (hE l.1) (hE l.2)
  constructor
  · show probOf (softmax2 E l) (argmax2 (softmax2 E l)) =
      max (softmax2 E l).1 (softmax2 E l).2
    unfold argmax2 probOf
    by_cases hgt : (softmax2 E l).2 > (softmax2 E l).1
    · rw [if_pos hgt, if_neg one_ne_zero]
      exact (max_eq_right (le_of_lt hgt)).symm
    · rw [if_neg hgt, if_pos rfl]
      exact (max_eq_left (not_lt.mp hgt)).symm
  · show E l.1 / (E l.1 + E l.2) + E l.2 / (E l.1 + E l.2) = 1
    rw [div_add_div_same, div_self (ne_of_gt hS)]

/-! ### Concrete fixtures used by the witness theorems -/

def wFsAll : String → Bool := fun _ => true

def wFsNone : String → Bool := fun _ => false

/-- An environment in which everything works: every path exists, the
tokenizer and weights load, the exponential is the constant 1, and
the forward pass returns the logits `(0, 0)`. -/
def wEnvOk : ServiceEnv :=
  { fs := wFsAll, tokOk := true, configOk := true, weightOk := true
    E := fun _ => 1, infer := fun _ => .ok (0, 0), device := "cpu" }

/-- An environment in which no checkpoint directory exists. -/
def wEnvNoPath : ServiceEnv :=
  { fs := wFsNone, tokOk := true, configOk := true, weightOk := true
    E := fun _ => 1, infer := fun _ => .ok (0, 0), device := "cpu" }

/-- A state with model and tokenizer resident. -/
def wLoaded : ServiceState :=
  { modelSet := true, tokenizerSet := true, model_path := base_model_path }

/-- A freshly initialized state, nothing resident. -/
def wFresh : ServiceState :=
  { modelSet := false, tokenizerSet := false, model_path := base_model_path }

/-! ### The claims -/

/-- C10: text normalization is idempotent: for every string `t`,
`preprocess_text (preprocess_text t) = preprocess_text t`, since the
output of one pass (trimmed, every whitespace run collapsed to one
space) is a fixed point of the second pass. -/
theorem C10_preprocess_idempotent (t : String) :
    preprocess_text (preprocess_text t) = preprocess_text t := by
  by_cases ht : t = ""
  · rw [ht]
    rfl
  · rw [preprocess_data t ht]
    by_cases hw : collapseL (stripL t.data) = []
    · rw [hw]
      rfl
    · have hne : String.mk (collapseL (stripL t.data)) ≠ "" := by
        intro he
        exact hw (congrArg String.data he)
      rw [preprocess_data _ hne]
      have hdata : (String.mk (collapseL (stripL t.data))).data
          = collapseL (stripL t.data) := rfl
      rw [hdata]
      have hhead : headOk (collapseL (stripL t.data)) :=
        headOk_collapseL (headOk_stripL t.data)
      have hlast : lastOk (collapseL (stripL t.data)) :=
        (lastOk_collapseAux (lastOk_stripL t.data) false).2
      rw [stripL_eq_self hhead hlast, collapseL_idem]

/-- Normalization sends any whitespace-only (or empty) input to the
empty string. -/
theorem preprocess_all_space {t : String}
    (h : ∀ c ∈ t.data, isSpaceChar c = true) : preprocess_text t = "" := by
  by_cases ht : t = ""
  · rw [ht]
    rfl
  · rw [preprocess_data t ht, stripL_of_all_space h]
    rfl

/-- C5: for every input that is empty or whitespace-only,
normalization yields the empty string, and `predict_sentiment`
returns the "빈 텍스트입니다" (empty text) failure whenever a model
is resident, and in every environment and state it returns some
failure, never a prediction. -/
theorem C5_empty_input_rejected (t : String)
    (hsp : ∀ c ∈ t.data, isSpaceChar c = true) :
    preprocess_text t = "" ∧
    (∀ env s, resident s = true →
      (predict_sentiment env s t).1 = .error ("빈 텍스트입니다")) ∧
    (∀ env s, (predict_sentiment env s t).1.isError = true) := by
  have h0 := preprocess_all_space hsp
  have hPL : ∀ (env : ServiceEnv) (s' : ServiceState),
      (predictLoaded env s' t).1 = .error ("빈 텍스트입니다") := by
    intro env s'
    unfold predictLoaded
    rw [if_pos h0]
  refine ⟨h0, fun env s hres => ?_, fun env s => ?_⟩
  · rw [predict_resident env s t hres]
    exact hPL env s
  · unfold predict_sentiment
    split
    · split
      · rfl
      · rw [hPL]
        rfl
    · rw [hPL]
      rfl

theorem C5_witness :
    (∀ c ∈ ("   " : String).data, isSpaceChar c = true) ∧
    resident wLoaded = true ∧
    preprocess_text ("   ") = "" ∧
    (predict_sentiment wEnvOk wLoaded ("   ")).1 = .error ("빈 텍스트입니다") ∧
    (predict_sentiment wEnvNoPath wFresh ("   ")).1.isError = true := by
  have h := C5_empty_input_rejected ("   ") (by decide)
  exact ⟨by decide, rfl, h.1, h.2.1 wEnvOk wLoaded rfl, h.2.2 wEnvNoPath wFresh⟩

/-- C7: the Model Locator selects the fine-tuned path whenever the
fine-tuned directory exists and otherwise the base path; when neither
exists this is not an error at locator stage: construction still
succeeds and the subsequent `load_model` reports failure gracefully. -/
theorem C7_model_locator (env : ServiceEnv) :
    (env.fs finetuned_model_path = true →
      (init_service env.fs).model_path = finetuned_model_path) ∧
    (env.fs finetuned_model_path = false →
      (init_service env.fs).model_path = base_model_path) ∧
    (env.fs finetuned_model_path = false → env.fs base_model_path = false →
      load_model env (init_service env.fs) = (false, init_service env.fs)) := by
  refine ⟨fun h => ?_, fun h => ?_, fun h hb => ?_⟩
  · unfold init_service
    rw [h]
    rfl
  · unfold init_service
    rw [h]
    rfl
  · have hpath : (init_service env.fs).model_path = base_model_path := by
      unfold init_service
      rw [h]
      rfl
    unfold load_model
    rw [hpath, hb]
    rfl

theorem C7_witness :
    wEnvOk.fs finetuned_model_path = true ∧
    wEnvNoPath.fs finetuned_model_path = false ∧
    wEnvNoPath.fs base_model_path = false ∧
    (init_service wEnvOk.fs).model_path = finetuned_model_path ∧
    (init_service wEnvNoPath.fs).model_path = base_model_path ∧
    load_model wEnvNoPath (init_service wEnvNoPath.fs)
      = (false, init_service wEnvNoPath.fs) :=
  ⟨rfl, rfl, rfl, (C7_model_locator wEnvOk).1 rfl,
    (C7_model_locator wEnvNoPath).2.1 rfl,
    (C7_model_locator wEnvNoPath).2.2 rfl rfl⟩

/-- C4: a batch request with 51 items is rejected at the validation
boundary, before the service (and hence any inference) runs; the
declared bounds accept exactly the lists of 1 to 50 items. -/
theorem C4_batch_size_boundary (env : ServiceEnv) (s : ServiceState)
    (texts : List String) (h51 : texts.length = 51) :
    analyze_batch env s texts = .error ("validation error") ∧
    (∀ ts : List String,
      batchRequestValid ts = true ↔ 1 ≤ ts.length ∧ ts.length ≤ 50) := by
  constructor
  · unfold analyze_batch
    rw [if_neg]
    simp [batchRequestValid, min_batch_items, max_batch_items, h51]
  · intro ts
    simp [batchRequestValid, min_batch_items, max_batch_items]

theorem C4_witness :
    (List.replicate 51 ("x")).length = 51 ∧
    analyze_batch wEnvOk wLoaded (List.replicate 51 ("x"))
      = .error ("validation error") ∧
    (batchRequestValid (List.replicate 50 ("x")) = true ↔
      1 ≤ (List.replicate 50 ("x")).length ∧ (List.replicate 50 ("x")).length ≤ 50) := by
  have h := C4_batch_size_boundary wEnvOk wLoaded (List.replicate 51 ("x")) (by simp)
  exact ⟨by simp, h.1, h.2 (List.replicate 50 ("x"))⟩

/-- C2: every successful `predict_sentiment` result comes from the
softmax post-processing of the forward pass's logits: before the
independent 4-digit display rounding, the confidence equals the
probability of the predicted label, which is the maximum of the two
probabilities, and the two probabilities sum to exactly 1 (hence
within 0.001 of 1). -/
theorem C2_confidence_consistent (env : ServiceEnv) (s : ServiceState)
    (t : String) (rec : ResultRecord) (hE : ∀ x, 0 < env.E x)
    (h : (predict_sentiment env s t).1 = .ok rec) :
    ∃ l, env.infer (preprocess_text t) = .ok l ∧
      rec = roundRecord t env.device (postprocess env.E l) ∧
      (postprocess env.E l).confidence =
        max (postprocess env.E l).probNeg (postprocess env.E l).probPos ∧
      (postprocess env.E l).probNeg + (postprocess env.E l).probPos = 1 ∧
      |(postprocess env.E l).probNeg + (postprocess env.E l).probPos - 1|
        ≤ 1 / 1000 := by
  obtain ⟨l, hinf, hrec⟩ := predict_ok_inv h
  obtain ⟨hmax, hsum⟩ := postprocess_consistent env.E l hE
  refine ⟨l, hinf, hrec, hmax, hsum, ?_⟩
  rw [hsum]
  norm_num

theorem C2_witness :
    (∀ x : ℚ, 0 < wEnvOk.E x) ∧
    (predict_sentiment wEnvOk wLoaded ("좋아요")).1 =
      .ok (roundRecord ("좋아요") ("cpu") (postprocess wEnvOk.E (0, 0))) ∧
    (∃ l, wEnvOk.infer (preprocess_text ("좋아요")) = .ok l ∧
      roundRecord ("좋아요") ("cpu") (postprocess wEnvOk.E (0, 0)) =
        roundRecord ("좋아요") wEnvOk.device (postprocess wEnvOk.E l) ∧
      (postprocess wEnvOk.E l).confidence =
        max (postprocess wEnvOk.E l).probNeg (postprocess wEnvOk.E l).probPos ∧
      (postprocess wEnvOk.E l).probNeg + (postprocess wEnvOk.E l).probPos = 1 ∧
      |(postprocess wEnvOk.E l).probNeg + (postprocess wEnvOk.E l).probPos - 1|
        ≤ 1 / 1000) :=
  ⟨fun _ => one_pos, rfl,
    C2_confidence_consistent wEnvOk wLoaded ("좋아요")
      (roundRecord ("좋아요") ("cpu") (postprocess wEnvOk.E (0, 0)))
      (fun _ => one_pos) rfl⟩

/-- C3: `predict_batch` returns one result per input, in input
order: either the single up-front lazy load fails, in which case
every position records the load failure (no item skipped, batch not
aborted), or the whole batch runs against one resident state and each
output equals the Predictor applied to that item alone at that state,
so items are processed independently and strictly in input order and
a failure (or invalid input) at position `k` makes exactly position
`k` a failure while every other item is still processed. -/
theorem C3_batch_one_to_one (env : ServiceEnv) (s : ServiceState)
    (texts : List String) (k : Nat) :
    (predict_batch env s texts).1.length = texts.length ∧
    ((resident s = false ∧ load_ok env s = false ∧
        (predict_batch env s texts).1
          = texts.map fun _ => PredResult.error ("모델 로딩 실패")) ∨
      (resident (predict_batch env s texts).2 = true ∧
        (predict_batch env s texts).1[k]? =
          (texts[k]?).map fun t =>
            (predict_sentiment env (predict_batch env s texts).2 t).1)) := by
  by_cases hres : resident s = true
  · have hb := batchGo_resident env s hres texts
    have hpb : predict_batch env s texts
        = (texts.map fun t => (predict_sentiment env s t).1, s) := by
      unfold predict_batch
      rw [if_neg (by simp [hres]), hb]
    rw [hpb]
    refine ⟨by simp, Or.inr ⟨hres, ?_⟩⟩
    rw [List.getElem?_map]
  · have hres' : resident s = false := by
      cases h2 : resident s
      · rfl
      · exact absurd h2 hres
    by_cases hl : load_ok env s = true
    · have hload := load_model_of_ok hl
      have hres2 : resident { s with tokenizerSet := true, modelSet := true }
          = true := rfl
      have hb := batchGo_resident env _ hres2 texts
      have hpb : predict_batch env s texts
          = (texts.map fun t => (predict_sentiment env
              { s with tokenizerSet := true, modelSet := true } t).1,
             { s with tokenizerSet := true, modelSet := true }) := by
        unfold predict_batch
        rw [if_pos hres', hload]
        simp only [Bool.true_eq_false, if_false]
        exact hb
      rw [hpb]
      refine ⟨by simp, Or.inr ⟨rfl, ?_⟩⟩
      rw [List.getElem?_map]
    · have hl' : load_ok env s = false := by
        cases h2 : load_ok env s
        · rfl
        · exact absurd h2 hl
      obtain ⟨h1, h2⟩ := load_model_fail hl'
      have hpb : predict_batch env s texts
          = (texts.map fun _ => PredResult.error ("모델 로딩 실패"),
              (load_model env s).2) := by
        unfold predict_batch
        rw [if_pos hres', h1]
        rfl
      rw [hpb]
      exact ⟨by simp, Or.inl ⟨hres', hl', rfl⟩⟩

/-- C6: a model-load failure is non-fatal: when no model is resident
the call triggers the Model Loader and any load failure surfaces as
the structured "모델 로딩 실패" failure, never an uncaught fault, with
the selected checkpoint path unchanged; loading is re-attempted on
every subsequent call while no model is resident, with no backoff and
no retry limit — a later call from a still-non-resident state in a
working environment loads the model — and while a model is resident
no load is attempted (the state is untouched, so no backoff or retry
counter can exist). The last conjunct pins down the faithful
weight-stage semantics: an exception in `torch.load` (line 79) after
`self.model` was assigned (line 76) leaves both slots set, so the
service counts as resident afterwards and falls outside the
while-no-model-resident retry qualifier. -/
theorem C6_load_failure_lazy_retry (env env' : ServiceEnv) (s : ServiceState)
    (t t' : String) (hres : resident s = false)
    (hfail : load_ok env s = false) :
    (predict_sentiment env s t).1 = .error ("모델 로딩 실패") ∧
    (predict_sentiment env s t).2.model_path = s.model_path ∧
    (resident (predict_sentiment env s t).2 = false →
      load_ok env' (predict_sentiment env s t).2 = true →
      resident (predict_sentiment env' (predict_sentiment env s t).2 t').2
        = true) ∧
    (∀ env₂ s₂ t₂, resident s₂ = true → (predict_sentiment env₂ s₂ t₂).2 = s₂) ∧
    (env.fs s.model_path = true → env.tokOk = true → env.configOk = true →
      env.weightOk = false →
      resident (predict_sentiment env s t).2 = true) := by
  obtain ⟨h1, h2⟩ := predict_load_fail t hres hfail
  refine ⟨h1, h2, fun hres1 hok => ?_,
    fun env₂ s₂ t₂ h => predict_resident_snd env₂ s₂ t₂ h,
    fun hf ht hc hwt => ?_⟩
  · rw [predict_unresident_ok t' hres1 hok, predictLoaded_snd]
    rfl
  · have hlm : load_model env s
        = (false, { s with tokenizerSet := true, modelSet := true }) := by
      unfold load_model
      rw [hf, ht, hc, hwt]
      rfl
    have hstep : (predict_sentiment env s t).2
        = { s with tokenizerSet := true, modelSet := true } := by
      unfold predict_sentiment
      rw [hres, hlm]
      rfl
    rw [hstep]
    rfl

theorem C6_witness :
    resident wFresh = false ∧
    load_ok wEnvNoPath wFresh = false ∧
    resident (predict_sentiment wEnvNoPath wFresh ("a")).2 = false ∧
    load_ok wEnvOk (predict_sentiment wEnvNoPath wFresh ("a")).2 = true ∧
    (predict_sentiment wEnvNoPath wFresh ("a")).1 = .error ("모델 로딩 실패") ∧
    resident (predict_sentiment wEnvOk
      ((predict_sentiment wEnvNoPath wFresh ("a")).2) ("a")).2 = true := by
  have h := C6_load_failure_lazy_retry wEnvNoPath wEnvOk wFresh ("a") ("a") rfl rfl
  exact ⟨rfl, rfl, rfl, rfl, h.1, h.2.2.1 rfl rfl⟩

/-- C8: `health_check` probes the predictor with the fixed sentence
"이 영화는 정말 재미있어요!" and reports "healthy" exactly when the
probe returns no failure; on a cold start with a missing checkpoint
directory it reports "error" carrying the non-empty load-failure
detail; and a cold-start health check in a working environment
materializes the model. -/
theorem C8_health_check_probe (env : ServiceEnv) (s : ServiceState) :
    ((health_check env s).1.status = "healthy" ↔
      (predict_sentiment env s probe_sentence).1.isError = false) ∧
    ((health_check env s).1.test_prediction =
      (predict_sentiment env s probe_sentence).1) ∧
    (s.modelSet = false → env.fs s.model_path = false →
      (health_check env s).1.status = "error" ∧
      (health_check env s).1.test_prediction = .error ("모델 로딩 실패") ∧
      ("모델 로딩 실패" : String) ≠ "") ∧
    (resident s = false → load_ok env s = true →
      resident (health_check env s).2 = true) := by
  have hne : ("error" : String) ≠ "healthy" := by decide
  refine ⟨?_, rfl, fun hm hfs => ?_, fun hres hok => ?_⟩
  · unfold health_check
    cases hr : (predict_sentiment env s probe_sentence).1.isError
    · simp [hr]
    · simp [hr, hne]
  · have hres0 : resident s = false := by
      simp [resident, hm]
    have hfail : load_ok env s = false := by
      unfold load_ok
      rw [hfs]
      rfl
    obtain ⟨h1, _⟩ := predict_load_fail probe_sentence hres0 hfail
    unfold health_check
    rw [h1]
    exact ⟨rfl, rfl, by decide⟩
  · show resident (predict_sentiment env s probe_sentence).2 = true
    rw [predict_unresident_ok probe_sentence hres hok, predictLoaded_snd]
    rfl

theorem C8_witness :
    wFresh.modelSet = false ∧
    wEnvNoPath.fs wFresh.model_path = false ∧
    resident wFresh = false ∧
    load_ok wEnvOk wFresh = true ∧
    ((health_check wEnvNoPath wFresh).1.status = "error" ∧
      (health_check wEnvNoPath wFresh).1.test_prediction
        = .error ("모델 로딩 실패") ∧
      ("모델 로딩 실패" : String) ≠ "") ∧
    resident (health_check wEnvOk wFresh).2 = true :=
  ⟨rfl, rfl, rfl, rfl,
    (C8_health_check_probe wEnvNoPath wFresh).2.2.1 rfl rfl,
    (C8_health_check_probe wEnvOk wFresh).2.2.2 rfl rfl⟩

/-! ### Lemmas about the state-dict reconciliation -/

theorem freshStateDict_cw (cfg : ElectraConfig) :
    freshStateDict { cfg with num_labels := 2 } classifier_weight_key
      = some ⟨[2, cfg.hidden_size], .fresh classifier_weight_key⟩ := by
  unfold freshStateDict
  rw [if_pos rfl]

theorem freshStateDict_cb (cfg : ElectraConfig) :
    freshStateDict { cfg with num_labels := 2 } classifier_bias_key
      = some ⟨[2], .fresh classifier_bias_key⟩ := by
  unfold freshStateDict
  rw [if_neg (by decide : classifier_bias_key ≠ classifier_weight_key), if_pos rfl]

theorem freshStateDict_backbone (cfg : ElectraConfig) (k : String)
    (hkw : k ≠ classifier_weight_key) (hkb : k ≠ classifier_bias_key) :
    freshStateDict { cfg with num_labels := 2 } k
      = (cfg.backbone k).map fun sh => ⟨sh, .fresh k⟩ := by
  unfold freshStateDict
  rw [if_neg hkw, if_neg hkb]

theorem updated_dict_of_model (cfg : ElectraConfig)
    (ckpt : String → Option (List Nat)) (k : String) {sh : List Nat} {v : Val}
    (hfm : freshStateDict { cfg with num_labels := 2 } k = some ⟨sh, v⟩) :
    updated_dict cfg ckpt k
      = some ⟨sh, if ckpt k = some sh then .ckpt k else .fresh k ⟩ ∨
    (updated_dict cfg ckpt k = some ⟨sh, v⟩ ∧ ckpt k ≠ some sh) := by
  unfold updated_dict dict_update filtered_dict checkpointDict
  rw [hfm]
  cases hck : ckpt k with
  | none =>
    right
    refine ⟨rfl, by simp⟩
  | some shp =>
    by_cases hshp : sh = shp
    · left
      subst hshp
      simp
    · right
      refine ⟨?_, fun hc => hshp (Option.some.inj hc).symm⟩
      simp [hshp]

theorem updated_dict_backbone (cfg : ElectraConfig)
    (ckpt : String → Option (List Nat)) (k : String) (sh : List Nat)
    (hkw : k ≠ classifier_weight_key) (hkb : k ≠ classifier_bias_key)
    (hbk : cfg.backbone k = some sh) :
    updated_dict cfg ckpt k
      = some ⟨sh, if ckpt k = some sh then .ckpt k else .fresh k⟩ := by
  have hfm : freshStateDict { cfg with num_labels := 2 } k = some ⟨sh, .fresh k⟩ := by
    rw [freshStateDict_backbone cfg k hkw hkb, hbk]
    rfl
  rcases updated_dict_of_model cfg ckpt k hfm with h | ⟨h, hne⟩
  · exact h
  · rw [h, if_neg hne]

theorem updated_dict_cw_shape (cfg : ElectraConfig)
    (ckpt : String → Option (List Nat)) :
    ∃ v, updated_dict cfg ckpt classifier_weight_key
        = some ⟨[2, cfg.hidden_size], v⟩ ∧
      (ckpt classifier_weight_key ≠ some [2, cfg.hidden_size] →
        v = .fresh classifier_weight_key) := by
  rcases updated_dict_of_model cfg ckpt classifier_weight_key (freshStateDict_cw cfg) with h | ⟨h, hne⟩
  · by_cases hck : ckpt classifier_weight_key = some [2, cfg.hidden_size]
    · exact ⟨.ckpt classifier_weight_key, by rw [h, if_pos hck], fun hc => absurd hck hc⟩
    · exact ⟨.fresh classifier_weight_key, by rw [h, if_neg hck], fun _ => rfl⟩
  · exact ⟨.fresh classifier_weight_key, h, fun _ => rfl⟩

theorem updated_dict_cb_shape (cfg : ElectraConfig)
    (ckpt : String → Option (List Nat)) :
    ∃ v, updated_dict cfg ckpt classifier_bias_key = some ⟨[2], v⟩ := by
  rcases updated_dict_of_model cfg ckpt classifier_bias_key (freshStateDict_cb cfg) with h | ⟨h, _⟩
  · exact ⟨_, h⟩
  · exact ⟨_, h⟩

/-- C1: `load_model` builds a two-class network from any checkpoint,
copies exactly the name-and-shape-matching tensors (mismatching ones,
a differently sized classification head included, stay freshly
initialized instead of failing the load), and then unconditionally
re-initializes the classifier weight from `N(0, 0.02)` and zeroes the
classifier bias, even when the checkpoint head matched. -/
theorem C1_loader_partial_copy_reinit (cfg : ElectraConfig)
    (ckpt : String → Option (List Nat)) (k : String) (sh : List Nat) :
    load_model_dict cfg ckpt classifier_weight_key
      = some ⟨[2, cfg.hidden_size], .normal 0 (2/100)⟩ ∧
    load_model_dict cfg ckpt classifier_bias_key = some ⟨[2], .zeros⟩ ∧
    (k ≠ classifier_weight_key → k ≠ classifier_bias_key →
      load_model_dict cfg ckpt k = updated_dict cfg ckpt k) ∧
    (k ≠ classifier_weight_key → k ≠ classifier_bias_key →
      cfg.backbone k = some sh →
      updated_dict cfg ckpt k
        = some ⟨sh, if ckpt k = some sh then .ckpt k else .fresh k⟩) ∧
    (ckpt classifier_weight_key ≠ some [2, cfg.hidden_size] →
      updated_dict cfg ckpt classifier_weight_key
        = some ⟨[2, cfg.hidden_size], .fresh classifier_weight_key⟩) := by
  obtain ⟨vw, hvw, hvw'⟩ := updated_dict_cw_shape cfg ckpt
  obtain ⟨vb, hvb⟩ := updated_dict_cb_shape cfg ckpt
  refine ⟨?_, ?_, fun hkw hkb => ?_, fun hkw hkb hbk =>
    updated_dict_backbone cfg ckpt k sh hkw hkb hbk, fun hne => ?_⟩
  · unfold load_model_dict reinit_classifier
    rw [if_pos rfl, hvw]
    rfl
  · unfold load_model_dict reinit_classifier
    rw [if_neg (by decide : classifier_bias_key ≠ classifier_weight_key),
      if_pos rfl, hvb]
    rfl
  · unfold load_model_dict reinit_classifier
    rw [if_neg hkw, if_neg hkb]
  · rw [hvw, hvw' hne]

/-- Backbone shapes, checkpoint, and config used to witness C1: the
checkpoint stores a 5-class head, so its head mismatches the 2-class
network while the embedding tensor matches. -/
def wCfg : ElectraConfig :=
  { num_labels := 5, hidden_size := 8
    backbone := fun k => if k = "electra.embeddings.word_embeddings.weight"
      then some [100, 8] else none }

def wCkpt : String → Option (List Nat) := fun k =>
  if k = "electra.embeddings.word_embeddings.weight" then some [100, 8]
  else if k = classifier_weight_key then some [5, 8]
  else if k = classifier_bias_key then some [5]
  else none

theorem C1_witness :
    ("electra.embeddings.word_embeddings.weight" ≠ classifier_weight_key) ∧
    ("electra.embeddings.word_embeddings.weight" ≠ classifier_bias_key) ∧
    wCfg.backbone "electra.embeddings.word_embeddings.weight" = some [100, 8] ∧
    wCkpt classifier_weight_key ≠ some [2, wCfg.hidden_size] ∧
    load_model_dict wCfg wCkpt classifier_weight_key
      = some ⟨[2, wCfg.hidden_size], .normal 0 (2/100)⟩ ∧
    load_model_dict wCfg wCkpt classifier_bias_key = some ⟨[2], .zeros⟩ ∧
    updated_dict wCfg wCkpt "electra.embeddings.word_embeddings.weight"
      = some ⟨[100, 8],
          if wCkpt "electra.embeddings.word_embeddings.weight" = some [100, 8]
          then .ckpt "electra.embeddings.word_embeddings.weight"
          else .fresh "electra.embeddings.word_embeddings.weight"⟩ ∧
    updated_dict wCfg wCkpt classifier_weight_key
      = some ⟨[2, wCfg.hidden_size], .fresh classifier_weight_key⟩ := by
  have h := C1_loader_partial_copy_reinit wCfg wCkpt
    "electra.embeddings.word_embeddings.weight" [100, 8]
  exact ⟨by decide, by decide, rfl, by decide, h.1, h.2.1,
    h.2.2.2.1 (by decide) (by decide) rfl, h.2.2.2.2 (by decide)⟩

/-- C9, evaluated: at process start (no fine-tuned checkpoint) the
singleton is created with the base path; after a successful training
run writes the fine-tuned checkpoint and `/train` executes its reset,
the next `get_sentiment_service` still returns the stale instance
with the base path — the reset bound `None` in `koelectra_router`'s
namespace, not in `koelectra_service`'s, so the model is never
swapped, while a fresh construction would have selected the
fine-tuned path. -/
theorem C9_train_reset_ineffective :
    (get_sentiment_service wFsNone ⟨none, none⟩).1.model_path = base_model_path ∧
    (get_sentiment_service (fun p => p == finetuned_model_path)
        (train_model_success_reset
          (get_sentiment_service wFsNone ⟨none, none⟩).2)).1.model_path
      = base_model_path ∧
    (train_model_success_reset
        (get_sentiment_service wFsNone ⟨none, none⟩).2).serviceInstance
      = some (init_service wFsNone) ∧
    (init_service (fun p => p == finetuned_model_path)).model_path
      = finetuned_model_path ∧
    base_model_path ≠ finetuned_model_path :=
  ⟨rfl, rfl, rfl, rfl, by decide⟩

end KoelectraVerif
